import Mathlib

/-!
# Verification of the `claude-usage` CLI (src/main.rs)

Shallow embedding of the program's data model and rendering logic.
Conventions of the embedding:

* Rust `f64` utilization values are modelled as `ℚ`.  Every numeric value the
  claims mention (95.2, 40.0, 90.0, 89.9, 70.0, 69.9, 150, 100) is exactly
  representable, and the program only compares, clamps with `min`, rounds and
  formats to one decimal, all of which are exact on these inputs.
* Rust `usize` is modelled as `ℕ`.  `f64 as usize` is a saturating cast
  (negative values go to 0); since every cast result is immediately clamped by
  `.min(width)`, the upper saturation bound of the machine cast cannot change
  any result for a machine-representable width, so the cast is `Int.toNat`.
* The `colored` crate's styling is modelled as data: a `ColoredString` is the
  text together with the style applied to it; rendering concatenates the text
  (the behaviour of the crate with colours disabled).
* `chrono` timestamp parsing and local-time formatting are third-party
  library code, not part of this repository; they enter the embedding as
  function parameters (`parse : String → Option ℤ` giving UTC epoch seconds,
  `toLocal : ℤ → String` giving the local `HH:MM` text).  Durations are
  whole seconds (`ℤ`), matching `chrono::Duration::num_seconds` etc.
-/

/-- `UsageWindow` from main.rs: utilization percent and optional reset
timestamp string. -/
structure UsageWindow where
  utilization : ℚ
  resets_at : Option String
deriving DecidableEq

/-- `UsageResponse` from main.rs: the three optional windows. -/
structure UsageResponse where
  five_hour : Option UsageWindow
  seven_day : Option UsageWindow
  seven_day_opus : Option UsageWindow
deriving DecidableEq

/-- `OAuthToken` from main.rs. -/
structure OAuthToken where
  access_token : String
  subscription_type : Option String
deriving DecidableEq

/-- The text styles the program applies via the `colored` crate. -/
inductive Style where
  | redBold
  | yellow
  | green
  | dimmed
  | normal
deriving DecidableEq

/-- A piece of text together with the style applied to it. -/
structure ColoredString where
  text : String
  style : Style
deriving DecidableEq

/-- `f64::round`: round half away from zero. -/
def rustRound (q : ℚ) : ℤ :=
  if 0 ≤ q then ⌊q + 1/2⌋ else -⌊-q + 1/2⌋

/-- Round to nearest integer, ties to even — the rounding Rust's fixed-width
float formatting (`{:.1}`) performs on the decimal expansion. -/
def roundTiesEven (q : ℚ) : ℤ :=
  let f := ⌊q⌋
  let r := q - (f : ℚ)
  if r < 1/2 then f
  else if 1/2 < r then f + 1
  else if f % 2 = 0 then f else f + 1

/-- Rust `format!("{:.1}", x)`: one decimal digit, no padding. -/
def fmtFixed1 (q : ℚ) : String :=
  let n : ℤ := roundTiesEven (q * 10)
  let sign := if n < 0 then "-" else ""
  let m := n.natAbs
  sign ++ toString (m / 10) ++ "." ++ toString (m % 10)

/-- `print_plain` from main.rs, as the line it prints. -/
def print_plain (label : String) (window : Option UsageWindow) : String :=
  match window with
  | none => label ++ ": N/A"
  | some w =>
    let pct := min w.utilization 100
    let resets := w.resets_at.getD "—"
    label ++ ": " ++ fmtFixed1 pct ++ "% Resets: " ++ resets

/-- The plain-mode path of `run` from main.rs: read credential, fetch usage,
print the 5-hour and 7-day lines (Opus is never printed in plain mode).
Credential reading and the HTTP fetch are effectful; they enter as the
`Except` results they produce. -/
def runPlain (cred : Except String OAuthToken)
    (fetch : String → Except String UsageResponse) :
    Except String (List String) :=
  match cred with
  | .error e => .error e
  | .ok tok =>
    match fetch tok.access_token with
    | .error e => .error e
    | .ok usage =>
      .ok [print_plain "5hr session" usage.five_hour,
           print_plain "7 day rolling" usage.seven_day]

/-- `main` from main.rs: an `Err` from `run` exits with code 1, success with
code 0. -/
def exitCode {α : Type} (r : Except String α) : ℕ :=
  match r with
  | .ok _ => 0
  | .error _ => 1

/-- Rust `"c".repeat(n)` for a single-character string. -/
def strRepeat (c : Char) (n : ℕ) : String :=
  ⟨List.replicate n c⟩

/-- The filled-glyph count of `usage_bar` from main.rs:
`((pct / 100.0) * width as f64).round() as usize`, then `.min(width)`.
The `as usize` cast saturates below at 0 (`Int.toNat`). -/
def barFilled (pct : ℚ) (width : ℕ) : ℕ :=
  min (rustRound (pct / 100 * (width : ℚ))).toNat width

/-- `usage_bar` from main.rs: the bar text and its colour. -/
def usage_bar (pct : ℚ) (width : ℕ) : ColoredString :=
  let filled := barFilled pct width
  let empty := width - filled
  let bar := strRepeat '█' filled ++ strRepeat '░' empty
  if 90 ≤ pct then ⟨bar, .redBold⟩
  else if 70 ≤ pct then ⟨bar, .yellow⟩
  else ⟨bar, .green⟩

/-- The style `print_window` applies to the percentage text (main.rs lines
147–153). -/
def pctStyle (pct : ℚ) : Style :=
  if 90 ≤ pct then .redBold
  else if 70 ≤ pct then .yellow
  else .green

/-- Rust `format!("{:5.1}", x)`: right-aligned in width 5. -/
def padLeftTo (w : ℕ) (s : String) : String :=
  strRepeat ' ' (w - s.length) ++ s

/-- Rust `format!("{:<18}", s)`: left-aligned in width 18. -/
def padRightTo (w : ℕ) (s : String) : String :=
  s ++ strRepeat ' ' (w - s.length)

/-- The percentage text of a window row: `format!("{:5.1}%", pct)`. -/
def pctText (pct : ℚ) : String :=
  padLeftTo 5 (fmtFixed1 pct) ++ "%"

/-- One row of the colorized report, as printed by `print_window`. -/
inductive WindowRow where
  | notAvailable (label : String)
  | window (label : String) (bar : ColoredString) (pct : ColoredString)
      (reset : String)
deriving DecidableEq

/-- The label a row was printed with. -/
def rowLabel : WindowRow → String
  | .notAvailable label => label
  | .window label _ _ _ => label

/-- `print_window` from main.rs.  `fmt` is the reset-field formatter
(`format_reset`, parameterised here because it depends on the clock and
time zone). -/
def print_window (fmt : Option String → String) (label : String)
    (window : Option UsageWindow) (width : ℕ) : WindowRow :=
  match window with
  | none => .notAvailable label
  | some w =>
    let pct := min w.utilization 100
    .window label (usage_bar pct width) ⟨pctText pct, pctStyle pct⟩
      (fmt w.resets_at)

/-- The text of a printed row (styles erased), following the two `println!`
formats of `print_window`. -/
def renderRow : WindowRow → String
  | .notAvailable label => "  " ++ padRightTo 18 label ++ " " ++ "not available"
  | .window label bar pct reset =>
    "  " ++ padRightTo 18 label ++ " " ++ bar.text ++ " " ++ pct.text ++
      " resets " ++ reset

/-- The Opus rows printed by `run` (main.rs lines 225–230): the row appears
only when the window is present and has data. -/
def opusRows (fmt : Option String → String) (r : UsageResponse)
    (width : ℕ) : List WindowRow :=
  match r.seven_day_opus with
  | some o =>
    if 0 < o.utilization ∨ o.resets_at.isSome then
      [print_window fmt "7-day (Opus)" (some o) width]
    else []
  | none => []

/-- The window rows printed by the colorized path of `run`, in order. -/
def colorizedRows (fmt : Option String → String) (r : UsageResponse)
    (width : ℕ) : List WindowRow :=
  [print_window fmt "5-hour session" r.five_hour width,
   print_window fmt "7-day rolling" r.seven_day width] ++ opusRows fmt r width

/-- The three contextual hints `run` can print after the rows. -/
inductive Hint where
  | warning
  | pacing
  | reassurance
deriving DecidableEq

/-- `highest` from `run` (main.rs lines 235–238): fold of `f64::max` with
seed `0.0` over the utilizations of the 5-hour and 7-day windows. -/
def highestUtil (r : UsageResponse) : ℚ :=
  (([r.five_hour, r.seven_day].filterMap
    (fun w => w.map UsageWindow.utilization)).foldl max 0)

/-- The hint `run` selects (main.rs lines 240–255). -/
def summaryHint (r : UsageResponse) : Hint :=
  if 90 ≤ highestUtil r then .warning
  else if 70 ≤ highestUtil r then .pacing
  else .reassurance

/-- The hint as a function of a maximum utilization value alone. -/
def hintOfMax (m : ℚ) : Hint :=
  if 90 ≤ m then .warning
  else if 70 ≤ m then .pacing
  else .reassurance

/-- The relative part of `format_reset` (main.rs lines 119–130), from the
signed difference `resets_at − now` in whole seconds.  `chrono`'s
`num_minutes`/`num_hours`/`num_days` truncate toward zero (`Int.tdiv`). -/
def formatRelative (secs : ℤ) : ColoredString :=
  let mins := Int.tdiv secs 60
  let hours := Int.tdiv secs 3600
  if secs ≤ 0 then ⟨"now", .green⟩
  else if mins < 60 then ⟨"in " ++ toString mins ++ "m", .yellow⟩
  else if hours < 24 then
    ⟨"in " ++ toString hours ++ "h " ++ toString (mins - hours * 60) ++ "m",
     .normal⟩
  else ⟨"in " ++ toString (Int.tdiv secs 86400) ++ "d", .normal⟩

/-- `format_reset` from main.rs.  `parse` is `chrono`'s ISO 8601 parser
(UTC epoch seconds on success), `toLocal` the local-time `HH:MM` rendering,
`now` the current time — all external to this repository. -/
def format_reset (parse : String → Option ℤ) (toLocal : ℤ → String)
    (now : ℤ) (resets_at : Option String) : String :=
  match resets_at with
  | none => "—"
  | some ts =>
    match parse ts with
    | none => ts
    | some dt => toLocal dt ++ " (" ++ (formatRelative (dt - now)).text ++ ")"

/-- `reqwest::StatusCode::is_success`: 2xx. -/
def isSuccessStatus (status : ℕ) : Bool :=
  Nat.ble 200 status && Nat.blt status 300

/-- The error message `fetch_usage` produces on HTTP 401. -/
def unauthorizedMsg : String :=
  "Token expired or invalid — try logging out and back in with Claude Code:\n  claude logout && claude"

/-- `fetch_usage` from main.rs, as a function of the response: its HTTP
status, the result of deserializing the body as a `UsageResponse`, and the
body text (used in the non-401 error message; the status is rendered here
by its number). -/
def fetch_usage (status : ℕ) (bodyParse : Option UsageResponse)
    (bodyText : String) : Except String UsageResponse :=
  if status = 401 then .error unauthorizedMsg
  else if !isSuccessStatus status then
    .error ("API returned " ++ toString status ++ ": " ++ bodyText)
  else
    match bodyParse with
    | some u => .ok u
    | none => .error "Failed to parse usage response"

/-! ## Evaluation helpers -/

theorem roundTiesEven_intCast (n : ℤ) : roundTiesEven (n : ℚ) = n := by
  simp [roundTiesEven]

theorem strRepeat_length (c : Char) (n : ℕ) : (strRepeat c n).length = n := by
  simp [strRepeat, String.length]

theorem rustRound_nonpos {q : ℚ} (h : q ≤ 0) : rustRound q ≤ 0 := by
  rw [rustRound]
  split_ifs with h0
  · have : q = 0 := le_antisymm h h0
    subst this
    norm_num
  · rw [neg_nonpos]
    rw [Int.le_floor]
    push_cast
    linarith [not_le.mp h0]

theorem rowLabel_print_window (fmt : Option String → String) (label : String)
    (w : Option UsageWindow) (width : ℕ) :
    rowLabel (print_window fmt label w width) = label := by
  cases w <;> rfl

/-- The three styles `pctStyle` can return, characterised by the thresholds
of main.rs lines 147–153. -/
theorem pctStyle_cases (pct : ℚ) :
    (pctStyle pct = .redBold ↔ 90 ≤ pct) ∧
    (pctStyle pct = .yellow ↔ 70 ≤ pct ∧ pct < 90) ∧
    (pctStyle pct = .green ↔ pct < 70) := by
  unfold pctStyle
  split_ifs with h1 h2
  · exact ⟨iff_of_true rfl h1,
      iff_of_false (by decide) (fun h => absurd h1 (not_le.mpr h.2)),
      iff_of_false (by decide) (not_lt.mpr (le_trans (by norm_num) h1))⟩
  · exact ⟨iff_of_false (by decide) h1,
      iff_of_true rfl ⟨h2, not_le.mp h1⟩,
      iff_of_false (by decide) (not_lt.mpr h2)⟩
  · exact ⟨iff_of_false (by decide) h1,
      iff_of_false (by decide) (fun h => h2 h.1),
      iff_of_true rfl (not_le.mp h2)⟩

theorem fmtFixed1_ofInt (q : ℚ) (n : ℤ) (h : q * 10 = (n : ℚ)) :
    fmtFixed1 q = (if n < 0 then "-" else "") ++
      toString (n.natAbs / 10) ++ "." ++ toString (n.natAbs % 10) := by
  rw [fmtFixed1, h, roundTiesEven_intCast]

/-- **C1.** In plain mode, for the usage response
`{"five_hour":{"utilization":95.2,"resets_at":"2024-01-01T00:00:00Z"},
"seven_day":{"utilization":40.0,"resets_at":null},"seven_day_opus":null}`,
the program prints exactly the two lines
`5hr session: 95.2% Resets: 2024-01-01T00:00:00Z` and
`7 day rolling: 40.0% Resets: —`, in that order, and exits with code 0. -/
theorem c1_plain_end_to_end :
    runPlain (.ok ⟨"tok", none⟩)
      (fun _ => .ok ⟨some ⟨95.2, some "2024-01-01T00:00:00Z"⟩,
                     some ⟨40.0, none⟩, none⟩) =
      .ok ["5hr session: 95.2% Resets: 2024-01-01T00:00:00Z",
           "7 day rolling: 40.0% Resets: —"] ∧
    exitCode (runPlain (.ok (⟨"tok", none⟩ : OAuthToken))
      (fun _ => .ok ⟨some ⟨95.2, some "2024-01-01T00:00:00Z"⟩,
                     some ⟨40.0, none⟩, none⟩)) = 0 := by
  have h1 : min (95.2 : ℚ) 100 = 95.2 := by norm_num
  have h2 : min (40.0 : ℚ) 100 = 40.0 := by norm_num
  have e1 : fmtFixed1 (95.2 : ℚ) = "95.2" := by
    rw [fmtFixed1_ofInt 95.2 952 (by norm_num)]; decide
  have e2 : fmtFixed1 (40.0 : ℚ) = "40.0" := by
    rw [fmtFixed1_ofInt 40.0 400 (by norm_num)]; decide
  constructor
  · simp only [runPlain, print_plain, Option.getD, h1, h2, e1, e2]
    rfl
  · rfl

/-- **C3.** For every utilization value u > 100 and every bar width, the
rendered window row (bar, percentage text, colour and reset field) is
identical to the row rendered for u = 100 with the same width and reset
time: utilization is clamped to at most 100 before any display
computation. -/
theorem c3_clamp_above_100 (fmt : Option String → String) (label : String)
    (u : ℚ) (width : ℕ) (resets : Option String) (h : 100 < u) :
    print_window fmt label (some ⟨u, resets⟩) width =
      print_window fmt label (some ⟨100, resets⟩) width := by
  have hm : min u 100 = (100 : ℚ) := min_eq_right h.le
  simp [print_window, hm]

theorem c3_witness :
    (100 : ℚ) < 150 ∧
    print_window (fun _ => "—") "5-hour session" (some ⟨150, none⟩) 28 =
      print_window (fun _ => "—") "5-hour session" (some ⟨100, none⟩) 28 :=
  ⟨by decide, c3_clamp_above_100 (fun _ => "—") "5-hour session" 150 28 none
    (by decide)⟩

/-- **C4.** The colour style applied to the bar is the same as the one
applied to the percentage text, and the thresholds are inclusive: the
displayed row uses the critical style iff u ≥ 90, the elevated style iff
70 ≤ u < 90, and the normal style iff u < 70; in particular u = 90 is
critical, u = 89.9 and u = 70 elevated, u = 69.9 normal.  (`Style.redBold`
is the critical style, `Style.yellow` the elevated one, `Style.green` the
normal one.) -/
theorem c4_color_thresholds (u : ℚ) (width : ℕ) :
    (usage_bar (min u 100) width).style = pctStyle (min u 100) ∧
    (pctStyle (min u 100) = .redBold ↔ 90 ≤ u) ∧
    (pctStyle (min u 100) = .yellow ↔ 70 ≤ u ∧ u < 90) ∧
    (pctStyle (min u 100) = .green ↔ u < 70) ∧
    pctStyle (90 : ℚ) = .redBold ∧ pctStyle (89.9 : ℚ) = .yellow ∧
    pctStyle (70 : ℚ) = .yellow ∧ pctStyle (69.9 : ℚ) = .green := by
  obtain ⟨p1, p2, p3⟩ := pctStyle_cases (min u 100)
  have k90 : (90 : ℚ) ≤ min u 100 ↔ 90 ≤ u :=
    ⟨fun h => (le_min_iff.mp h).1, fun h => le_min_iff.mpr ⟨h, by norm_num⟩⟩
  have k70 : (70 : ℚ) ≤ min u 100 ↔ 70 ≤ u :=
    ⟨fun h => (le_min_iff.mp h).1, fun h => le_min_iff.mpr ⟨h, by norm_num⟩⟩
  have l90 : min u 100 < 90 ↔ u < 90 := by
    rw [min_lt_iff]
    constructor
    · rintro (h | h)
      · exact h
      · norm_num at h
    · exact fun h => Or.inl h
  have l70 : min u 100 < 70 ↔ u < 70 := by
    rw [min_lt_iff]
    constructor
    · rintro (h | h)
      · exact h
      · norm_num at h
    · exact fun h => Or.inl h
  refine ⟨?_, p1.trans k90, p2.trans (and_congr k70 l90), p3.trans l70,
    ?_, ?_, ?_, ?_⟩
  · simp only [usage_bar, pctStyle]
    split_ifs <;> rfl
  · rw [pctStyle, if_pos (by norm_num)]
  · rw [pctStyle, if_neg (by norm_num), if_pos (by norm_num)]
  · rw [pctStyle, if_neg (by norm_num), if_pos (by norm_num)]
  · rw [pctStyle, if_neg (by norm_num), if_neg (by norm_num)]

/-- **C10.** The bar renderer is total for every utilization value
(including negative ones) and every width: the filled count is clamped
into [0, width] (a negative percentage saturates to 0 filled glyphs), so
the empty count never underflows and the bar is exactly `width` glyphs
long. -/
theorem c10_bar_total (pct : ℚ) (width : ℕ) :
    barFilled pct width ≤ width ∧
    (pct < 0 → barFilled pct width = 0) ∧
    (usage_bar pct width).text.length = width := by
  refine ⟨min_le_right _ _, ?_, ?_⟩
  · intro hneg
    have h0 : pct / 100 ≤ 0 := by linarith
    have h1 : pct / 100 * (width : ℚ) ≤ 0 :=
      mul_nonpos_iff.mpr (Or.inr ⟨h0, Nat.cast_nonneg width⟩)
    have h2 : rustRound (pct / 100 * (width : ℚ)) ≤ 0 := rustRound_nonpos h1
    simp [barFilled, Int.toNat_of_nonpos h2]
  · have hf : barFilled pct width ≤ width := min_le_right _ _
    simp only [usage_bar]
    split_ifs <;>
      simp only [String.length_append, strRepeat_length] <;> omega

theorem c10_witness :
    (-5 : ℚ) < 0 ∧ barFilled (-5) 10 = 0 ∧
    (usage_bar (-5) 10).text.length = 10 :=
  ⟨by decide, (c10_bar_total (-5) 10).2.1 (by decide),
    (c10_bar_total (-5) 10).2.2⟩

/-- **C5.** The colorized summary hint is selected solely by the maximum
utilization over the 5-hour and 7-day windows (the Opus window is
excluded): ≥ 90 gives the warning hint, ≥ 70 the pacing hint, otherwise
the reassurance hint; when both windows are absent the maximum defaults
to 0 and the reassurance hint is printed. -/
theorem c5_hint_selection (r : UsageResponse) (o : Option UsageWindow) :
    summaryHint r = hintOfMax (highestUtil r) ∧
    summaryHint ⟨r.five_hour, r.seven_day, o⟩ = summaryHint r ∧
    (90 ≤ highestUtil r → summaryHint r = .warning) ∧
    (highestUtil r < 90 → 70 ≤ highestUtil r → summaryHint r = .pacing) ∧
    (highestUtil r < 70 → summaryHint r = .reassurance) ∧
    (r.five_hour = none → r.seven_day = none →
      highestUtil r = 0 ∧ summaryHint r = .reassurance) := by
  refine ⟨rfl, rfl, ?_, ?_, ?_, ?_⟩
  · intro h
    simp [summaryHint, h]
  · intro h1 h2
    simp [summaryHint, not_le.mpr h1, h2]
  · intro h
    have n90 : ¬ (90 : ℚ) ≤ highestUtil r := not_le.mpr (h.trans (by norm_num))
    simp [summaryHint, n90, not_le.mpr h]
  · intro hf hs
    have h0 : highestUtil r = 0 := by simp [highestUtil, hf, hs]
    refine ⟨h0, ?_⟩
    rw [summaryHint, h0]
    norm_num

theorem c5_witness :
    highestUtil ⟨none, none, none⟩ = 0 ∧
    summaryHint ⟨none, none, none⟩ = .reassurance :=
  (c5_hint_selection ⟨none, none, none⟩ none).2.2.2.2.2 rfl rfl

/-- **C6.** In colorized mode, the 7-day-Opus row is printed iff the Opus
window is present and has either positive utilization or a reset time; in
particular an Opus window with utilization 0 and no reset time produces no
row. -/
theorem c6_opus_row (fmt : Option String → String) (r : UsageResponse)
    (width : ℕ) (fh sd : Option UsageWindow) :
    ((∃ row ∈ colorizedRows fmt r width, rowLabel row = "7-day (Opus)") ↔
      ∃ o, r.seven_day_opus = some o ∧
        (0 < o.utilization ∨ o.resets_at.isSome = true)) ∧
    ¬ ∃ row ∈ colorizedRows fmt ⟨fh, sd, some ⟨0, none⟩⟩ width,
        rowLabel row = "7-day (Opus)" := by
  constructor
  · rcases hr : r.seven_day_opus with _ | o
    · constructor
      · rintro ⟨row, hmem, hl⟩
        simp [colorizedRows, opusRows, hr] at hmem
        rcases hmem with h | h <;> subst h <;>
          rw [rowLabel_print_window] at hl <;> exact absurd hl (by decide)
      · rintro ⟨o, ho, -⟩
        exact Option.noConfusion ho
    · by_cases hc : 0 < o.utilization ∨ o.resets_at.isSome = true
      · constructor
        · intro _
          exact ⟨o, rfl, hc⟩
        · intro _
          refine ⟨print_window fmt "7-day (Opus)" (some o) width, ?_,
            rowLabel_print_window fmt "7-day (Opus)" (some o) width⟩
          simp [colorizedRows, opusRows, hr, hc]
      · constructor
        · rintro ⟨row, hmem, hl⟩
          simp [colorizedRows, opusRows, hr, hc] at hmem
          rcases hmem with h | h <;> subst h <;>
            rw [rowLabel_print_window] at hl <;> exact absurd hl (by decide)
        · rintro ⟨o', ho', hcond⟩
          rw [Option.some.injEq] at ho'
          subst ho'
          exact absurd hcond hc
  · rintro ⟨row, hmem, hl⟩
    have hc : ¬ (0 < (0 : ℚ) ∨ (none : Option String).isSome = true) := by
      decide
    simp [colorizedRows, opusRows, hc] at hmem
    rcases hmem with h | h <;> subst h <;>
      rw [rowLabel_print_window] at hl <;> exact absurd hl (by decide)

/-- **C2 (counterexample).** The claim fails for the Opus window: with all
three windows absent, the colorized path prints only the 5-hour and 7-day
"not available" rows — no row with the Opus label appears at all, because
`run` guards `print_window` for Opus behind `if let Some(..)`. -/
theorem c2_counterexample :
    (⟨none, none, none⟩ : UsageResponse).seven_day_opus = none ∧
    colorizedRows (fun _ => "—") ⟨none, none, none⟩ 28 =
      [.notAvailable "5-hour session", .notAvailable "7-day rolling"] ∧
    ¬ ∃ row ∈ colorizedRows (fun _ => "—") ⟨none, none, none⟩ 28,
        rowLabel row = "7-day (Opus)" := by
  refine ⟨rfl, rfl, ?_⟩
  rintro ⟨row, hmem, hl⟩
  rw [show colorizedRows (fun _ => "—") ⟨none, none, none⟩ 28 =
    [.notAvailable "5-hour session", .notAvailable "7-day rolling"] from rfl]
    at hmem
  simp only [List.mem_cons, List.not_mem_nil, or_false] at hmem
  rcases hmem with h | h <;> subst h <;> exact absurd hl (by decide)

/-- **C2 (amended).** In colorized mode, for the 5-hour and 7-day windows,
an absent window produces its label followed by the "not available"
placeholder instead of a bar (in plain mode, the label with an "N/A"
marker); an absent Opus window produces no row at all. -/
theorem c2_absent_windows (fmt : Option String → String) (width : ℕ)
    (r : UsageResponse) (label : String) :
    print_window fmt label none width = WindowRow.notAvailable label ∧
    renderRow (WindowRow.notAvailable label) =
      "  " ++ padRightTo 18 label ++ " " ++ "not available" ∧
    print_plain label none = label ++ ": N/A" ∧
    (r.five_hour = none →
      (colorizedRows fmt r width)[0]? =
        some (WindowRow.notAvailable "5-hour session")) ∧
    (r.seven_day = none →
      (colorizedRows fmt r width)[1]? =
        some (WindowRow.notAvailable "7-day rolling")) ∧
    (r.seven_day_opus = none →
      ¬ ∃ row ∈ colorizedRows fmt r width, rowLabel row = "7-day (Opus)") := by
  refine ⟨rfl, rfl, rfl, ?_, ?_, ?_⟩
  · intro h
    simp [colorizedRows, h, print_window]
  · intro h
    simp [colorizedRows, h, print_window]
  · intro h
    rintro ⟨row, hmem, hl⟩
    simp [colorizedRows, opusRows, h] at hmem
    rcases hmem with h' | h' <;> subst h' <;>
      rw [rowLabel_print_window] at hl <;> exact absurd hl (by decide)

theorem c2_witness :
    (colorizedRows (fun _ => "x") ⟨none, none, none⟩ 5)[0]? =
      some (WindowRow.notAvailable "5-hour session") ∧
    (colorizedRows (fun _ => "x") ⟨none, none, none⟩ 5)[1]? =
      some (WindowRow.notAvailable "7-day rolling") ∧
    ¬ ∃ row ∈ colorizedRows (fun _ => "x") ⟨none, none, none⟩ 5,
        rowLabel row = "7-day (Opus)" :=
  ⟨(c2_absent_windows (fun _ => "x") 5 ⟨none, none, none⟩ "L").2.2.2.1 rfl,
   (c2_absent_windows (fun _ => "x") 5 ⟨none, none, none⟩ "L").2.2.2.2.1 rfl,
   (c2_absent_windows (fun _ => "x") 5 ⟨none, none, none⟩ "L").2.2.2.2.2 rfl⟩

/-- **C7.** For a parseable reset timestamp, the formatted reset field ends
in the relative part, which is "now" for a difference ≤ 0 seconds,
`in Nm` under 60 minutes, `in Nh Mm` under 24 hours, and `in Nd` at 24
hours or more; 30 minutes ahead gives "in 30m", 90 minutes "in 1h 30m",
2 days "in 2d". -/
theorem c7_relative_time (parse : String → Option ℤ) (toLocal : ℤ → String)
    (now : ℤ) (ts : String) (dt : ℤ) (h : parse ts = some dt) :
    format_reset parse toLocal now (some ts) =
      toLocal dt ++ " (" ++ (formatRelative (dt - now)).text ++ ")" ∧
    (∀ s : ℤ, s ≤ 0 → (formatRelative s).text = "now") ∧
    (∀ s : ℤ, 0 < s → s < 3600 →
      (formatRelative s).text = "in " ++ toString (Int.tdiv s 60) ++ "m") ∧
    (∀ s : ℤ, 3600 ≤ s → s < 86400 →
      (formatRelative s).text =
        "in " ++ toString (Int.tdiv s 3600) ++ "h " ++
          toString (Int.tdiv s 60 - Int.tdiv s 3600 * 60) ++ "m") ∧
    (∀ s : ℤ, 86400 ≤ s →
      (formatRelative s).text = "in " ++ toString (Int.tdiv s 86400) ++ "d") ∧
    (formatRelative 1800).text = "in 30m" ∧
    (formatRelative 5400).text = "in 1h 30m" ∧
    (formatRelative 172800).text = "in 2d" := by
  refine ⟨by simp [format_reset, h], ?_, ?_, ?_, ?_,
    by decide, by decide, by decide⟩
  · intro s hs
    simp [formatRelative, hs]
  · intro s h0 h1
    have e60 : Int.tdiv s 60 = s / 60 := Int.tdiv_eq_ediv (by omega) (by omega)
    have hm : Int.tdiv s 60 < 60 := by rw [e60]; omega
    simp only [formatRelative]
    rw [if_neg (by omega), if_pos hm]
  · intro s h0 h1
    have e60 : Int.tdiv s 60 = s / 60 := Int.tdiv_eq_ediv (by omega) (by omega)
    have e3600 : Int.tdiv s 3600 = s / 3600 :=
      Int.tdiv_eq_ediv (by omega) (by omega)
    have hm : ¬ Int.tdiv s 60 < 60 := by rw [e60]; omega
    have hh : Int.tdiv s 3600 < 24 := by rw [e3600]; omega
    simp only [formatRelative]
    rw [if_neg (by omega), if_neg hm, if_pos hh]
  · intro s h0
    have e60 : Int.tdiv s 60 = s / 60 := Int.tdiv_eq_ediv (by omega) (by omega)
    have e3600 : Int.tdiv s 3600 = s / 3600 :=
      Int.tdiv_eq_ediv (by omega) (by omega)
    have hm : ¬ Int.tdiv s 60 < 60 := by rw [e60]; omega
    have hh : ¬ Int.tdiv s 3600 < 24 := by rw [e3600]; omega
    simp only [formatRelative]
    rw [if_neg (by omega), if_neg hm, if_neg hh]

theorem c7_witness :
    (formatRelative (1800 - 0)).text = "in 30m" ∧
    (formatRelative 5400).text = "in 1h 30m" ∧
    (formatRelative 172800).text = "in 2d" ∧
    (formatRelative 0).text = "now" :=
  ⟨by
    rw [show (1800 - 0 : ℤ) = 1800 from rfl]
    exact (c7_relative_time (fun _ => some 1800) (fun _ => "00:00") 0 "t"
      1800 rfl).2.2.2.2.2.1,
   (c7_relative_time (fun _ => some 1800) (fun _ => "00:00") 0 "t"
      1800 rfl).2.2.2.2.2.2.1,
   (c7_relative_time (fun _ => some 1800) (fun _ => "00:00") 0 "t"
      1800 rfl).2.2.2.2.2.2.2,
   (c7_relative_time (fun _ => some 1800) (fun _ => "00:00") 0 "t"
      1800 rfl).2.1 0 (by decide)⟩

/-- **C8.** A reset timestamp string that fails to parse is rendered
verbatim; an absent timestamp renders as the placeholder dash. -/
theorem c8_unparseable_fallback (parse : String → Option ℤ)
    (toLocal : ℤ → String) (now : ℤ) (ts : String) (h : parse ts = none) :
    format_reset parse toLocal now (some ts) = ts ∧
    format_reset parse toLocal now none = "—" := by
  constructor
  · simp [format_reset, h]
  · rfl

theorem c8_witness :
    format_reset (fun _ => none) (fun _ => "") 0 (some "not-a-timestamp") =
      "not-a-timestamp" ∧
    format_reset (fun _ => none) (fun _ => "") 0 none = "—" :=
  c8_unparseable_fallback (fun _ => none) (fun _ => "") 0 "not-a-timestamp" rfl

/-- Whether `needle` occurs at the start of `hay`. -/
def subAtStart : List Char → List Char → Bool
  | _, [] => true
  | [], _ :: _ => false
  | a :: as, b :: bs => a == b && subAtStart as bs

/-- Whether `needle` occurs anywhere in `hay` (structural substring
search, used to state that an error message contains an instruction). -/
def containsSub : List Char → List Char → Bool
  | [], needle => needle.isEmpty
  | a :: as, needle => subAtStart (a :: as) needle || containsSub as needle

/-- **C9.** An HTTP 401 response makes `fetch_usage` fail with the error
message instructing the user to reauthenticate (it contains "try logging
out and back in"), and the process exits with code 1 (non-zero). -/
theorem c9_unauthorized (bodyParse : Option UsageResponse)
    (bodyText : String) (tok : OAuthToken) :
    fetch_usage 401 bodyParse bodyText = .error unauthorizedMsg ∧
    containsSub unauthorizedMsg.data "try logging out and back in".data =
      true ∧
    exitCode (runPlain (.ok tok)
      (fun _ => fetch_usage 401 bodyParse bodyText)) = 1 := by
  refine ⟨rfl, by decide, rfl⟩

theorem c6_witness :
    ∃ row ∈ colorizedRows (fun _ => "x") ⟨none, none, some ⟨50, none⟩⟩ 5,
      rowLabel row = "7-day (Opus)" :=
  (c6_opus_row (fun _ => "x") ⟨none, none, some ⟨50, none⟩⟩ 5 none none).1.mpr
    ⟨⟨50, none⟩, rfl, Or.inl (by decide)⟩
